import Mathlib

/-!
Verification development for the 2-way-single-intersection-QL repository.

The repository consists of two Python files of orchestration glue:
`src/agents/trafficagent.py` (a `TrafficAgent` base class with three
strategy subclasses) and `src/test3.py`.  The simulation engine
(`SumoEnvironment`), the tabular agent (`QLAgent`), the deep trainer
(`DQN` from stable-baselines3) and the plotting utility (`Plotter`) are
external collaborators; they are modelled here as abstract behaviour
parameters, while the repository's own control flow is translated
faithfully.  Side effects that the claims talk about (environment
resets and steps, plotter appends, metric-callback invocations,
persistence calls) are recorded as events in a trace, so the claims
become theorems about the traces the translated code emits.

Conventions:
  * Python `dict` values are association lists in insertion order.
  * Python `int` is `Int`; Python floats are carried as values of an
    abstract type `V` when they are merely moved around (metric values,
    rewards) and as `Rat` when the source writes literals that are only
    stored, never computed with (hyper-parameters such as `0.1`).
  * Python `//` on ints is floor division, `Int.fdiv`.
-/

/-- Python `os.path.join a b` for a POSIX path with a single extra
component, as used in the module import guard: `b` absolute wins,
otherwise a separator is inserted unless `a` is empty or already ends
with one. -/
def osPathJoin (a b : String) : String :=
  if b.startsWith "/" then b
  else if a = "" ∨ a.endsWith "/" then a ++ b
  else a ++ "/" ++ b

/-- Python `str.split(sep)[0]` for the one-character separator `.` :
the prefix of the string before the first dot (the whole string when
there is none).  Used by `_get_csv_name` to drop fractional seconds. -/
def pySplitDotHead (s : String) : String :=
  String.mk (s.data.takeWhile (fun c => c ≠ '.'))

/-- Python `str.replace(q, r)` for the one-character arguments used in
`_get_csv_name` (replace every colon by a dash). -/
def pyReplaceColonDash (s : String) : String :=
  String.mk (s.data.map (fun c => if c = ':' then '-' else c))

/-- The timestamp computed by `_get_csv_name`:
`str(datetime.now()).split('.')[0].replace(':', '-')`, as a function of
the rendered current datetime. -/
def pyTimestamp (now : String) : String :=
  pyReplaceColonDash (pySplitDotHead now)

/-- Python floor division `a // b` on ints (the divisor is nonzero in
every use in this repository). -/
def pyFloorDiv (a b : Int) : Int :=
  Int.fdiv a b

/-- Lookup in a Python dict modelled as an association list in
insertion order: `d[k]` when the key is present. -/
def dictGet? {V : Type} (d : List (String × V)) (k : String) : Option V :=
  (d.find? (fun p => p.1 == k)).map (fun p => p.2)

/-- The keys of a Python dict modelled as an association list, in
insertion order (what `for k in d` iterates over). -/
def dictKeys {V : Type} (d : List (String × V)) : List String :=
  d.map (fun p => p.1)

/-- Observable events emitted by the translated repository code.  `V`
is the type of metric and reward values (floats in the source, never
computed with here). -/
inductive Ev (V : Type) where
  /-- `self._get_env(...)` returned; records the `out_csv_name` it was given. -/
  | getEnv (out_csv_name : String)
  /-- `self._get_agent(env)` was invoked by `learn`. -/
  | getAgent
  /-- `env.reset()` was called. -/
  | envReset
  /-- a `QLAgent` was constructed for traffic signal `ts` with the given
  `starting_state` (the encoded initial observation). -/
  | agentCreate (ts : String) (startState : Nat)
  /-- `agent[ts].act()` was called while building the actions dict. -/
  | agentAct (ts : String)
  /-- `env.step(actions)` was called; records the keys of the actions dict. -/
  | envStep (actionKeys : List String)
  /-- `self.plotter.append(v, k)` was called by `_update_metrics`. -/
  | plotAppend (v : V) (k : String)
  /-- the user callback was invoked as `callback(v, k, self.name)`. -/
  | callback (v : V) (k : String) (name : String)
  /-- `agent[ts].learn(next_state, reward)` was called with the encoded
  next state and the reward for `ts`. -/
  | agentLearnEv (ts : String) (nextState : Nat) (reward : V)
  /-- `agent.learn(total_timesteps=..., callback=...)` was called on the DQN. -/
  | dqnLearn (total_timesteps : Int)
  /-- `self._save_model()` was invoked by `learn`. -/
  | saveModel
  /-- `env.save_csv(out_csv_name, 0)` was called by `_save_csv`. -/
  | saveCsv (out_csv_name : String) (episode : Int)
  /-- `self.plotter.save(self.name)` was called by `_save_plots`. -/
  | savePlots (name : String)
  /-- `env.close()` was called at the end of `learn`. -/
  | envClose
  deriving DecidableEq

/-- The keyword arguments `_get_env` hands to the external
`SumoEnvironment` constructor. -/
structure SumoEnvConfig where
  net_file : String
  route_file : String
  out_csv_name : String
  use_gui : Bool
  num_seconds : Int
  delta_time : Int
  yellow_time : Int
  min_green : Int
  max_green : Int
  add_system_info : Bool
  add_per_agent_info : Bool
  fixed_ts : Bool
  single_agent : Bool
  deriving DecidableEq

/-- The tuple returned by one `env.step(actions)` call of the external
environment, plus the contents of `env.metrics` right after that call
(the loops read `env.metrics[-1]`).  `doneAll` models the entry
`done["__all__"]` of the returned done dict; observation and reward
dicts are modelled as total maps over traffic-signal ids. -/
structure StepOut (σ Obs V : Type) where
  next : σ
  obs : String → Obs
  reward : String → V
  doneAll : Bool
  metrics : List (List (String × V))

/-- Abstract behaviour of the external `SumoEnvironment`: its state
after construction, its traffic-signal ids, and its `reset`, `step`
and `encode` operations. -/
structure EnvBehavior (σ Obs V : Type) where
  init : σ
  ts_ids : List String
  resetFn : σ → σ × (String → Obs)
  stepFn : σ → List (String × Nat) → StepOut σ Obs V
  encode : Obs → String → Nat

/-- A constructed environment: the configuration that `_get_env` passed
to the constructor, paired with the external behaviour. -/
structure SumoEnvironment (σ Obs V : Type) where
  config : SumoEnvConfig
  beh : EnvBehavior σ Obs V

/-- The fields the `TrafficAgent.__init__` of
`src/agents/trafficagent.py` stores on `self` (the `Plotter` it also
constructs is external and only reached through trace events). -/
structure TrafficAgent where
  name : String
  color : String
  fixed_ts : Bool
  single_agent : Bool
  net_file : String
  route_file : String
  num_seconds : Int
  delta_time : Int
  yellow_time : Int
  min_green : Int
  max_green : Int
  deriving DecidableEq

/-- Translation of `TrafficAgent._get_csv_name`: the experiment time is
`str(datetime.now()).split('.')[0].replace(':', '-')` (the current
datetime string is passed in as `now`), the parameters are rendered as
`k=v` and joined with commas, and the result is
`outputs/<name>/<time>,<parameters>`. -/
def TrafficAgent._get_csv_name (self : TrafficAgent) (now : String)
    (args : List (String × Int)) : String :=
  "outputs/" ++ self.name ++ "/" ++ pyTimestamp now ++ ","
    ++ String.intercalate "," (args.map (fun arg => arg.1 ++ "=" ++ toString arg.2))

/-- Translation of `TrafficAgent._get_env`: builds a `SumoEnvironment`
passing the stored construction fields through unchanged together with
the caller-supplied `out_csv_name`, `use_gui`, `add_system_info` and
`add_per_agent_info`; the external behaviour is a parameter. -/
def TrafficAgent._get_env {σ Obs V : Type} (self : TrafficAgent)
    (beh : EnvBehavior σ Obs V) (out_csv_name : String)
    (use_gui add_system_info add_per_agent_info : Bool) :
    SumoEnvironment σ Obs V :=
  { config :=
      { net_file := self.net_file
        route_file := self.route_file
        out_csv_name := out_csv_name
        use_gui := use_gui
        num_seconds := self.num_seconds
        delta_time := self.delta_time
        yellow_time := self.yellow_time
        min_green := self.min_green
        max_green := self.max_green
        add_system_info := add_system_info
        add_per_agent_info := add_per_agent_info
        fixed_ts := self.fixed_ts
        single_agent := self.single_agent }
    beh := beh }

/-- Translation of `TrafficAgent._update_metrics`: for every key of the
`info` dict, in insertion order, append `info[metric]` to the plotter
and invoke the callback with `(info[metric], metric, self.name)`.  The
two calls are recorded as trace events. -/
def TrafficAgent._update_metrics {V : Type} (self : TrafficAgent)
    (info : List (String × V)) : List (Ev V) :=
  (dictKeys info).flatMap (fun metric =>
    match dictGet? info metric with
    | some v => [Ev.plotAppend v metric, Ev.callback v metric self.name]
    | none => [])

/-- What a strategy subclass contributes to the shared `learn` driver:
its `_get_agent` (returning the agent, the updated environment state
and the events it emitted) and its `_learn` loop (fuelled, returning
the final state and its events, or `none` when the fuel runs out or
`env.metrics[-1]` is read on an empty list). -/
structure StrategyImpl (σ Obs V A : Type) where
  getAgent : SumoEnvironment σ Obs V → σ → A × σ × List (Ev V)
  learnStep : SumoEnvironment σ Obs V → σ → A → Nat → Option (σ × List (Ev V))

/-- The events of the persistence epilogue of `learn`:
`self._save_model()` (a `pass` in all three subclasses),
`self._save_csv(env)` which calls `env.save_csv(env.out_csv_name, 0)`,
`self._save_plots()` which calls `self.plotter.save(self.name)`, and
`env.close()`. -/
def TrafficAgent.persistEvents {σ Obs V : Type} (self : TrafficAgent)
    (env : SumoEnvironment σ Obs V) : List (Ev V) :=
  [Ev.saveModel, Ev.saveCsv env.config.out_csv_name 0, Ev.savePlots self.name, Ev.envClose]

/-- Translation of the shared `TrafficAgent.learn` driver: build the
environment out of `_get_env` and `_get_csv_name` (passing the five
stored parameters in the source's order), obtain the agent with
`_get_agent`, run `_learn`, then `_save_model`, `_save_csv`,
`_save_plots` and `env.close()`.  The user metric callback is observed
through the `Ev.callback` events that `_update_metrics` emits inside
`_learn`. -/
def TrafficAgent.learn {σ Obs V A : Type} (self : TrafficAgent)
    (impl : StrategyImpl σ Obs V A) (beh : EnvBehavior σ Obs V)
    (now : String) (fuel : Nat)
    (add_system_info : Bool := true) (add_per_agent_info : Bool := true)
    (use_gui : Bool := false) : Option (List (Ev V)) :=
  let env := self._get_env beh
    (self._get_csv_name now
      [("num_seconds", self.num_seconds),
       ("delta_time", self.delta_time),
       ("yellow_time", self.yellow_time),
       ("min_green", self.min_green),
       ("max_green", self.max_green)])
    use_gui add_system_info add_per_agent_info
  let ga := impl.getAgent env env.beh.init
  match impl.learnStep env ga.2.1 ga.1 fuel with
  | none => none
  | some res =>
      some (Ev.getEnv env.config.out_csv_name :: Ev.getAgent ::
        (ga.2.2 ++ res.2 ++ self.persistEvents env))

/-- Translation of `FixedCycleTrafficAgent.__init__`: forwards to the
base constructor with `fixed_ts = True`, `single_agent = False` and the
stored horizon `num_seconds - delta_time`. -/
def FixedCycleTrafficAgent.mk (name color net_file route_file : String)
    (num_seconds delta_time yellow_time min_green max_green : Int) : TrafficAgent :=
  { name := name, color := color, fixed_ts := true, single_agent := false
    net_file := net_file, route_file := route_file
    num_seconds := num_seconds - delta_time, delta_time := delta_time
    yellow_time := yellow_time, min_green := min_green, max_green := max_green }

/-- Translation of `FixedCycleTrafficAgent._get_agent`: ignores the
environment and returns `None`, touching nothing and emitting no events. -/
def FixedCycleTrafficAgent._get_agent {σ Obs V : Type}
    (_ : SumoEnvironment σ Obs V) (s : σ) : Option Unit × σ × List (Ev V) :=
  (none, s, [])

/-- The while loop of `FixedCycleTrafficAgent._learn`: step the
environment with an empty actions dict, read `env.metrics[-1]` (`none`
models the IndexError on an empty list), hand it to `update_metrics`,
and stop as soon as the step reported `done["__all__"]`.  Fuel bounds
the number of iterations; `none` also signals that it ran out. -/
def FixedCycleTrafficAgent.stepLoop {σ Obs V : Type} (self : TrafficAgent)
    (env : SumoEnvironment σ Obs V) : σ → Nat → Option (σ × List (Ev V))
  | _, 0 => none
  | s, fuel + 1 =>
    let out := env.beh.stepFn s []
    match out.metrics.getLast? with
    | none => none
    | some info =>
      let tr := Ev.envStep [] :: self._update_metrics info
      if out.doneAll then some (out.next, tr)
      else
        match FixedCycleTrafficAgent.stepLoop self env out.next fuel with
        | none => none
        | some res => some (res.1, tr ++ res.2)

/-- Translation of `FixedCycleTrafficAgent._learn`: `env.reset()` once,
then the step loop with empty actions until `done["__all__"]`. -/
def FixedCycleTrafficAgent._learn {σ Obs V : Type} (self : TrafficAgent)
    (env : SumoEnvironment σ Obs V) (s : σ) (fuel : Nat) :
    Option (σ × List (Ev V)) :=
  match FixedCycleTrafficAgent.stepLoop self env (env.beh.resetFn s).1 fuel with
  | none => none
  | some res => some (res.1, Ev.envReset :: res.2)

/-- The strategy record of the fixed-cycle subclass, plugging its
`_get_agent` and `_learn` into the shared driver. -/
def FixedCycleTrafficAgent.impl {σ Obs V : Type} (self : TrafficAgent) :
    StrategyImpl σ Obs V (Option Unit) :=
  { getAgent := fun env s => FixedCycleTrafficAgent._get_agent env s
    learnStep := fun env s _ fuel => FixedCycleTrafficAgent._learn self env s fuel }

/-- `learn` as invoked on a `FixedCycleTrafficAgent`: the inherited
driver with the fixed-cycle strategy. -/
def FixedCycleTrafficAgent.learn {σ Obs V : Type} (self : TrafficAgent)
    (beh : EnvBehavior σ Obs V) (now : String) (fuel : Nat)
    (add_system_info : Bool := true) (add_per_agent_info : Bool := true)
    (use_gui : Bool := false) : Option (List (Ev V)) :=
  TrafficAgent.learn self (FixedCycleTrafficAgent.impl self) beh now fuel
    add_system_info add_per_agent_info use_gui

/-- The result of iterating `env.step({})` from state `s`: entry `n` is
the `StepOut` of the `(n+1)`-st step.  Used to state when the
fixed-cycle loop terminates. -/
def stepsFrom {σ Obs V : Type} (env : SumoEnvironment σ Obs V) (s : σ) :
    Nat → StepOut σ Obs V
  | 0 => env.beh.stepFn s []
  | n + 1 => env.beh.stepFn (stepsFrom env s n).next []

/-- Hyper-parameters stored by the two learning subclasses
(`alpha`, `gamma`, `initial_epsilon`, `min_epsilon`), plus the base
fields.  The float literals of the source are carried as rationals;
they are only stored and forwarded, never computed with. -/
structure LearningTrafficAgentData where
  toTrafficAgent : TrafficAgent
  alpha : Rat
  gamma : Rat
  initial_epsilon : Rat
  min_epsilon : Rat
  deriving DecidableEq

/-- Translation of `QLearningTrafficAgent.__init__`: base constructor
with `fixed_ts = False`, `single_agent = False`, horizon
`num_seconds - delta_time`, and the four stored hyper-parameters
(defaults `0.1`, `0.99`, `1`, `0.005`). -/
def QLearningTrafficAgent.mk (name color net_file route_file : String)
    (num_seconds delta_time yellow_time min_green max_green : Int)
    (alpha : Rat := 1/10) (gamma : Rat := 99/100)
    (initial_epsilon : Rat := 1) (min_epsilon : Rat := 1/200) :
    LearningTrafficAgentData :=
  { toTrafficAgent :=
      { name := name, color := color, fixed_ts := false, single_agent := false
        net_file := net_file, route_file := route_file
        num_seconds := num_seconds - delta_time, delta_time := delta_time
        yellow_time := yellow_time, min_green := min_green, max_green := max_green }
    alpha := alpha, gamma := gamma
    initial_epsilon := initial_epsilon, min_epsilon := min_epsilon }

/-- Abstract behaviour of the external `QLAgent` with its
`EpsilonGreedy` exploration: construction from the hyper-parameters and
a starting state, `act()` returning an action and the mutated agent,
and `learn(next_state, reward)` returning the mutated agent.  The
`state_space` and `action_space` arguments of the source are part of
the abstracted constructor. -/
structure QLModel (α V : Type) where
  newAgent : (alpha gamma initial_epsilon min_epsilon decay : Rat) →
    (starting_state : Nat) → α
  actFn : α → Nat × α
  learnFn : α → Nat → V → α

/-- A Python dict of per-traffic-signal `QLAgent`s, in insertion order. -/
abbrev Agents (α : Type) := List (String × α)

/-- Translation of `QLearningTrafficAgent._get_agent`: reset the
environment, then build the dict that holds, for each `ts` in
`env.ts_ids`, a fresh `QLAgent` whose `starting_state` is
`env.encode(initial_states[ts], ts)`, with exploration decay `0.9`. -/
def QLearningTrafficAgent._get_agent {σ Obs V α : Type}
    (self : LearningTrafficAgentData) (qm : QLModel α V)
    (env : SumoEnvironment σ Obs V) (s : σ) :
    Agents α × σ × List (Ev V) :=
  let r := env.beh.resetFn s
  let ql_agents := env.beh.ts_ids.map (fun ts =>
    (ts, qm.newAgent self.alpha self.gamma self.initial_epsilon self.min_epsilon
      (9/10) (env.beh.encode (r.2 ts) ts)))
  (ql_agents, r.1,
    Ev.envReset :: env.beh.ts_ids.map (fun ts =>
      Ev.agentCreate ts (env.beh.encode (r.2 ts) ts)))

/-- The while loop of `QLearningTrafficAgent._learn`: build the actions
dict by calling `act()` on every agent, step the environment with it,
hand `env.metrics[-1]` to `update_metrics`, then let every agent
`learn` from the encoded next state and its reward; stop when the step
reported `done["__all__"]`. -/
def QLearningTrafficAgent.stepLoop {σ Obs V α : Type} (self : TrafficAgent)
    (qm : QLModel α V) (env : SumoEnvironment σ Obs V) :
    σ → Agents α → Nat → Option (σ × List (Ev V))
  | _, _, 0 => none
  | s, agents, fuel + 1 =>
    let acted := agents.map (fun p => (p.1, qm.actFn p.2))
    let actions := acted.map (fun p => (p.1, p.2.1))
    let out := env.beh.stepFn s actions
    match out.metrics.getLast? with
    | none => none
    | some info =>
      let agents1 := acted.map (fun p => (p.1, p.2.2))
      let agents2 := agents1.map (fun p =>
        (p.1, qm.learnFn p.2 (env.beh.encode (out.obs p.1) p.1) (out.reward p.1)))
      let tr := (agents.map (fun p => Ev.agentAct p.1))
        ++ Ev.envStep (actions.map (fun p => p.1)) :: self._update_metrics info
        ++ (agents1.map (fun p =>
            Ev.agentLearnEv p.1 (env.beh.encode (out.obs p.1) p.1) (out.reward p.1)))
      if out.doneAll then some (out.next, tr)
      else
        match QLearningTrafficAgent.stepLoop self qm env out.next agents2 fuel with
        | none => none
        | some res => some (res.1, tr ++ res.2)

/-- Translation of `QLearningTrafficAgent._learn`: the step loop,
starting from the agents dict built by `_get_agent` (no reset here; the
reset already happened inside `_get_agent`). -/
def QLearningTrafficAgent._learn {σ Obs V α : Type} (self : TrafficAgent)
    (qm : QLModel α V) (env : SumoEnvironment σ Obs V) (s : σ)
    (agents : Agents α) (fuel : Nat) : Option (σ × List (Ev V)) :=
  QLearningTrafficAgent.stepLoop self qm env s agents fuel

/-- The strategy record of the tabular Q-learning subclass. -/
def QLearningTrafficAgent.impl {σ Obs V α : Type}
    (self : LearningTrafficAgentData) (qm : QLModel α V) :
    StrategyImpl σ Obs V (Agents α) :=
  { getAgent := fun env s => QLearningTrafficAgent._get_agent self qm env s
    learnStep := fun env s agents fuel =>
      QLearningTrafficAgent._learn self.toTrafficAgent qm env s agents fuel }

/-- `learn` as invoked on a `QLearningTrafficAgent`. -/
def QLearningTrafficAgent.learn {σ Obs V α : Type}
    (self : LearningTrafficAgentData) (qm : QLModel α V)
    (beh : EnvBehavior σ Obs V) (now : String) (fuel : Nat)
    (add_system_info : Bool := true) (add_per_agent_info : Bool := true)
    (use_gui : Bool := false) : Option (List (Ev V)) :=
  TrafficAgent.learn self.toTrafficAgent (QLearningTrafficAgent.impl self qm)
    beh now fuel add_system_info add_per_agent_info use_gui

/-- The keyword arguments `DeepQLearningTrafficAgent._get_agent` hands
to the external `DQN` constructor from stable-baselines3 (the `env`
argument is recorded through its configuration). -/
structure DQN where
  policy : String
  env : SumoEnvConfig
  learning_rate : Rat
  learning_starts : Int
  gamma : Rat
  train_freq : Int
  gradient_steps : Int
  target_update_interval : Int
  exploration_fraction : Rat
  exploration_initial_eps : Rat
  exploration_final_eps : Rat
  verbose : Int
  deriving DecidableEq

/-- Abstract behaviour of the external `DQN.learn` trainer: from an
environment state and `total_timesteps` it produces the final
environment state and, for each invocation of the supplied callback,
the dict `locals["infos"][0]` it passed. -/
structure DQNModel (σ V : Type) where
  run : σ → Int → σ × List (List (String × V))

/-- Translation of `DeepQLearningTrafficAgent.__init__`: base
constructor with `fixed_ts = False`, `single_agent = True`, stored
horizon `num_seconds // delta_time` (floor division), and the four
stored hyper-parameters (defaults `0.1`, `0.99`, `1`, `0.005`). -/
def DeepQLearningTrafficAgent.mk (name color net_file route_file : String)
    (num_seconds delta_time yellow_time min_green max_green : Int)
    (alpha : Rat := 1/10) (gamma : Rat := 99/100)
    (initial_epsilon : Rat := 1) (min_epsilon : Rat := 1/200) :
    LearningTrafficAgentData :=
  { toTrafficAgent :=
      { name := name, color := color, fixed_ts := false, single_agent := true
        net_file := net_file, route_file := route_file
        num_seconds := pyFloorDiv num_seconds delta_time, delta_time := delta_time
        yellow_time := yellow_time, min_green := min_green, max_green := max_green }
    alpha := alpha, gamma := gamma
    initial_epsilon := initial_epsilon, min_epsilon := min_epsilon }

/-- Translation of `DeepQLearningTrafficAgent._get_agent`: constructs
the `DQN` with policy `MlpPolicy`, the environment, and the stored
hyper-parameters, emitting no environment events. -/
def DeepQLearningTrafficAgent._get_agent {σ Obs V : Type}
    (self : LearningTrafficAgentData) (env : SumoEnvironment σ Obs V)
    (s : σ) : DQN × σ × List (Ev V) :=
  ({ policy := "MlpPolicy"
     env := env.config
     learning_rate := self.alpha
     learning_starts := 0
     gamma := self.gamma
     train_freq := 1
     gradient_steps := 1
     target_update_interval := 500
     exploration_fraction := 1/10
     exploration_initial_eps := self.initial_epsilon
     exploration_final_eps := self.min_epsilon
     verbose := 1 }, s, [])

/-- Translation of `DeepQLearningTrafficAgent._learn`: ignores the
environment argument and calls `agent.learn` with
`total_timesteps = self.num_seconds` and a callback that hands
`locals["infos"][0]` to `update_metrics` on every invocation. -/
def DeepQLearningTrafficAgent._learn {σ V : Type} (self : TrafficAgent)
    (dm : DQNModel σ V) (s : σ) : Option (σ × List (Ev V)) :=
  let r := dm.run s self.num_seconds
  some (r.1, Ev.dqnLearn self.num_seconds ::
    r.2.flatMap (fun info => self._update_metrics info))

/-- The strategy record of the deep Q-learning subclass. -/
def DeepQLearningTrafficAgent.impl {σ Obs V : Type}
    (self : LearningTrafficAgentData) (dm : DQNModel σ V) :
    StrategyImpl σ Obs V DQN :=
  { getAgent := fun env s => DeepQLearningTrafficAgent._get_agent self env s
    learnStep := fun _ s _ _ =>
      DeepQLearningTrafficAgent._learn self.toTrafficAgent dm s }

/-- `learn` as invoked on a `DeepQLearningTrafficAgent`. -/
def DeepQLearningTrafficAgent.learn {σ Obs V : Type}
    (self : LearningTrafficAgentData) (dm : DQNModel σ V)
    (beh : EnvBehavior σ Obs V) (now : String) (fuel : Nat)
    (add_system_info : Bool := true) (add_per_agent_info : Bool := true)
    (use_gui : Bool := false) : Option (List (Ev V)) :=
  TrafficAgent.learn self.toTrafficAgent (DeepQLearningTrafficAgent.impl self dm)
    beh now fuel add_system_info add_per_agent_info use_gui

/-- Outcome of importing a module guarded by the `SUMO_HOME` check. -/
inductive ImportOutcome where
  /-- `sys.exit(msg)` ran: the process terminates with `msg` before any
  further top-level statement (in particular before any environment or
  agent can be constructed). -/
  | exited (msg : String)
  /-- the guard passed; carries the resulting `sys.path`. -/
  | loaded (sys_path : List String)
  deriving DecidableEq

/-- Translation of the module import guard that appears identically at
the top of `src/agents/trafficagent.py` (lines 8-12) and of
`src/test3.py` (lines 5-9): when `SUMO_HOME` is in `os.environ`, append
`os.path.join(os.environ["SUMO_HOME"], "tools")` to `sys.path`;
otherwise `sys.exit("Please declare the environment variable
'SUMO_HOME'")`. -/
def sumoImportGuard (sumo_home : Option String) (sys_path : List String) :
    ImportOutcome :=
  match sumo_home with
  | some home => ImportOutcome.loaded (sys_path ++ [osPathJoin home "tools"])
  | none => ImportOutcome.exited "Please declare the environment variable \x27SUMO_HOME\x27"

/-- Events that belong to the persistence epilogue of `learn`. -/
def isPersistEv {V : Type} : Ev V → Bool
  | Ev.saveModel => true
  | Ev.saveCsv _ _ => true
  | Ev.savePlots _ => true
  | Ev.envClose => true
  | _ => false

theorem dictGet?_eq_of_mem_nodup {V : Type} {info : List (String × V)}
    {kv : String × V} (hnd : (dictKeys info).Nodup) (hm : kv ∈ info) :
    dictGet? info kv.1 = some kv.2 := by
  induction info with
  | nil => cases hm
  | cons p t ih =>
    rcases List.mem_cons.mp hm with h | h
    · subst h
      simp [dictGet?, List.find?]
    · have hk : kv.1 ∈ dictKeys t := List.mem_map.mpr ⟨kv, h, rfl⟩
      have hne : p.1 ≠ kv.1 := by
        intro he
        exact (List.nodup_cons.mp (by simpa [dictKeys] using hnd)).1 (he ▸ hk)
      have : dictGet? (p :: t) kv.1 = dictGet? t kv.1 := by
        have hbeq : (p.1 == kv.1) = false := beq_eq_false_iff_ne.mpr hne
        simp [dictGet?, List.find?, hbeq]
      rw [this]
      exact ih (List.nodup_cons.mp (by simpa [dictKeys] using hnd)).2 h

theorem um_count_zero {V : Type} [DecidableEq V] (name : String)
    (full : List (String × V)) (keys : List String) (v : V) (k : String)
    (hk : k ∉ keys) :
    ((keys.flatMap fun m =>
        match dictGet? full m with
        | some w => [Ev.plotAppend w m, Ev.callback w m name]
        | none => ([] : List (Ev V))).count (Ev.plotAppend v k) = 0 ∧
     (keys.flatMap fun m =>
        match dictGet? full m with
        | some w => [Ev.plotAppend w m, Ev.callback w m name]
        | none => ([] : List (Ev V))).count (Ev.callback v k name) = 0) := by
  induction keys with
  | nil => simp
  | cons m t ih =>
    have hmk : m ≠ k := fun he => hk (he ▸ List.mem_cons_self m t)
    have ht : k ∉ t := fun hmem => hk (List.mem_cons_of_mem m hmem)
    have hblock := ih ht
    rw [List.flatMap_cons, List.count_append, List.count_append]
    constructor
    · rw [hblock.1]
      cases hfind : dictGet? full m with
      | none => simp
      | some w => simp [List.count_cons, hmk]
    · rw [hblock.2]
      cases hfind : dictGet? full m with
      | none => simp
      | some w => simp [List.count_cons, hmk]

theorem um_count_one {V : Type} [DecidableEq V] (name : String)
    (full : List (String × V)) (keys : List String) (hnd : keys.Nodup)
    (v : V) (k : String) (hk : k ∈ keys) (hget : dictGet? full k = some v) :
    ((keys.flatMap fun m =>
        match dictGet? full m with
        | some w => [Ev.plotAppend w m, Ev.callback w m name]
        | none => ([] : List (Ev V))).count (Ev.plotAppend v k) = 1 ∧
     (keys.flatMap fun m =>
        match dictGet? full m with
        | some w => [Ev.plotAppend w m, Ev.callback w m name]
        | none => ([] : List (Ev V))).count (Ev.callback v k name) = 1) := by
  induction keys with
  | nil => cases hk
  | cons m t ih =>
    rw [List.flatMap_cons, List.count_append, List.count_append]
    rcases List.mem_cons.mp hk with h | h
    · have hk2 : k ∉ t := by rw [h]; exact (List.nodup_cons.mp hnd).1
      have hz := um_count_zero name full t v k hk2
      rw [hz.1, hz.2]
      have hget2 : dictGet? full m = some v := by rw [← h]; exact hget
      rw [hget2]
      constructor <;> simp [List.count_cons, h]
    · have hmk : m ≠ k := by
        intro he
        exact (List.nodup_cons.mp hnd).1 (he ▸ h)
      have hrec := ih (List.nodup_cons.mp hnd).2 h
      rw [hrec.1, hrec.2]
      constructor
      · cases hfind : dictGet? full m with
        | none => simp
        | some w => simp [List.count_cons, hmk]
      · cases hfind : dictGet? full m with
        | none => simp
        | some w => simp [List.count_cons, hmk]

/-- C2.  For every metrics dict `info` handed to `_update_metrics` and
every entry of it, the value is appended to the plotter under its
metric exactly once and forwarded to the user callback together with
the metric name and the agent's name exactly once; in particular no
metric present in `info` is skipped.  (The hypothesis that the keys are
nodup is the dict invariant of the Python source.) -/
theorem update_metrics_fanout {V : Type} [DecidableEq V]
    (self : TrafficAgent) (info : List (String × V))
    (hnd : (dictKeys info).Nodup) :
    ∀ kv ∈ info,
      (self._update_metrics info).count (Ev.plotAppend kv.2 kv.1) = 1 ∧
      (self._update_metrics info).count (Ev.callback kv.2 kv.1 self.name) = 1 := by
  intro kv hm
  have hk : kv.1 ∈ dictKeys info := List.mem_map.mpr ⟨kv, hm, rfl⟩
  have hget := dictGet?_eq_of_mem_nodup hnd hm
  exact um_count_one self.name info (dictKeys info) hnd kv.2 kv.1 hk hget

/-- Witness for C2 on a concrete agent and a concrete two-entry dict. -/
theorem update_metrics_fanout_witness :
    (dictKeys [("system_mean_speed", (7 : Int)), ("t_stopped", 2)]).Nodup ∧
    (((FixedCycleTrafficAgent.mk "fixed" "red" "net.xml" "rou.xml" 100 5 2 5 50)._update_metrics
        [("system_mean_speed", (7 : Int)), ("t_stopped", 2)]).count
      (Ev.plotAppend 7 "system_mean_speed") = 1 ∧
     ((FixedCycleTrafficAgent.mk "fixed" "red" "net.xml" "rou.xml" 100 5 2 5 50)._update_metrics
        [("system_mean_speed", (7 : Int)), ("t_stopped", 2)]).count
      (Ev.callback 7 "system_mean_speed" "fixed") = 1) :=
  ⟨by decide,
   update_metrics_fanout (FixedCycleTrafficAgent.mk "fixed" "red" "net.xml" "rou.xml" 100 5 2 5 50)
     [("system_mean_speed", (7 : Int)), ("t_stopped", 2)] (by decide)
     ("system_mean_speed", (7 : Int)) (by decide)⟩

/-- C5.  The environment built by `_get_env` is configured exactly from
the fields stored at construction: `net_file`, `route_file`,
`num_seconds`, `delta_time`, `yellow_time`, `min_green`, `max_green`,
`fixed_ts` and `single_agent` pass through unchanged, together with the
caller-supplied `out_csv_name`, `use_gui`, `add_system_info` and
`add_per_agent_info`. -/
theorem get_env_config_passthrough {σ Obs V : Type} (self : TrafficAgent)
    (beh : EnvBehavior σ Obs V) (out_csv_name : String)
    (use_gui add_system_info add_per_agent_info : Bool) :
    (self._get_env beh out_csv_name use_gui add_system_info add_per_agent_info).config.net_file = self.net_file ∧
    (self._get_env beh out_csv_name use_gui add_system_info add_per_agent_info).config.route_file = self.route_file ∧
    (self._get_env beh out_csv_name use_gui add_system_info add_per_agent_info).config.num_seconds = self.num_seconds ∧
    (self._get_env beh out_csv_name use_gui add_system_info add_per_agent_info).config.delta_time = self.delta_time ∧
    (self._get_env beh out_csv_name use_gui add_system_info add_per_agent_info).config.yellow_time = self.yellow_time ∧
    (self._get_env beh out_csv_name use_gui add_system_info add_per_agent_info).config.min_green = self.min_green ∧
    (self._get_env beh out_csv_name use_gui add_system_info add_per_agent_info).config.max_green = self.max_green ∧
    (self._get_env beh out_csv_name use_gui add_system_info add_per_agent_info).config.fixed_ts = self.fixed_ts ∧
    (self._get_env beh out_csv_name use_gui add_system_info add_per_agent_info).config.single_agent = self.single_agent ∧
    (self._get_env beh out_csv_name use_gui add_system_info add_per_agent_info).config.out_csv_name = out_csv_name ∧
    (self._get_env beh out_csv_name use_gui add_system_info add_per_agent_info).config.use_gui = use_gui ∧
    (self._get_env beh out_csv_name use_gui add_system_info add_per_agent_info).config.add_system_info = add_system_info ∧
    (self._get_env beh out_csv_name use_gui add_system_info add_per_agent_info).config.add_per_agent_info = add_per_agent_info := by
  refine ⟨rfl, rfl, rfl, rfl, rfl, rfl, rfl, rfl, rfl, rfl, rfl, rfl, rfl⟩

/-- Counterexample to C8 as stated: with constructor arguments
`num_seconds = 4`, `delta_time = 2` the deep-Q variant stores
`4 // 2 = 2`, exactly the `4 - 2 = 2` that the fixed-cycle and tabular
variants store, even though `delta_time` differs from `1`; so the
stored horizons do not differ for every argument pair with
`delta_time` different from `1`. -/
theorem dqn_horizon_coincides_at_4_2 :
    (DeepQLearningTrafficAgent.mk "dqn" "blue" "net.xml" "rou.xml" 4 2 3 5 50).toTrafficAgent.num_seconds
      = (FixedCycleTrafficAgent.mk "fixed" "red" "net.xml" "rou.xml" 4 2 3 5 50).num_seconds ∧
    (DeepQLearningTrafficAgent.mk "dqn" "blue" "net.xml" "rou.xml" 4 2 3 5 50).toTrafficAgent.num_seconds
      = (QLearningTrafficAgent.mk "ql" "green" "net.xml" "rou.xml" 4 2 3 5 50).toTrafficAgent.num_seconds ∧
    (2 : Int) ≠ 1 := by
  refine ⟨rfl, rfl, by decide⟩

/-- C8 as amended.  The `num_seconds` stored on the base class (and
passed to the environment) is not the `num_seconds` the caller gave a
subclass constructor: the fixed-cycle and tabular variants store
`num_seconds - delta_time` while the deep-Q variant stores
`num_seconds // delta_time` (floor division); consequently the deep-Q
variant can simulate a different horizon than the other two when
`delta_time` differs from `1` (for instance `num_seconds = 10`,
`delta_time = 2` stores `5` against `8`), though the stored values
coincide for some such arguments (`num_seconds = 4`, `delta_time = 2`
stores `2` on all three). -/
theorem stored_horizon_formulas (name color net_file route_file : String)
    (num_seconds delta_time yellow_time min_green max_green : Int) :
    (FixedCycleTrafficAgent.mk name color net_file route_file
        num_seconds delta_time yellow_time min_green max_green).num_seconds
      = num_seconds - delta_time ∧
    (QLearningTrafficAgent.mk name color net_file route_file
        num_seconds delta_time yellow_time min_green max_green).toTrafficAgent.num_seconds
      = num_seconds - delta_time ∧
    (DeepQLearningTrafficAgent.mk name color net_file route_file
        num_seconds delta_time yellow_time min_green max_green).toTrafficAgent.num_seconds
      = pyFloorDiv num_seconds delta_time ∧
    (DeepQLearningTrafficAgent.mk name color net_file route_file
        10 2 yellow_time min_green max_green).toTrafficAgent.num_seconds = 5 ∧
    (FixedCycleTrafficAgent.mk name color net_file route_file
        10 2 yellow_time min_green max_green).num_seconds = 8 ∧
    (5 : Int) ≠ 8 := by
  refine ⟨rfl, rfl, rfl, rfl, rfl, by decide⟩

/-- C9.  When `SUMO_HOME` is absent from the environment, importing
either module runs `sys.exit` with the message `Please declare the
environment variable 'SUMO_HOME'` before anything else happens; when it
is present, the SUMO tools directory is appended to the module search
path and no exit occurs. -/
theorem sumo_home_import_guard (sys_path : List String) :
    sumoImportGuard none sys_path
      = ImportOutcome.exited "Please declare the environment variable \x27SUMO_HOME\x27" ∧
    ∀ home : String, sumoImportGuard (some home) sys_path
      = ImportOutcome.loaded (sys_path ++ [osPathJoin home "tools"]) := by
  exact ⟨rfl, fun home => rfl⟩

/-- Tail of a comma-separated rendering: each element preceded by a
comma.  Bridges `String.intercalate` and its accumulator helper. -/
def commaTail : List String → String
  | [] => ""
  | a :: as => "," ++ a ++ commaTail as

/-- Spec-side rendering of the claim about `_get_csv_name`: the given
strings joined with single commas, in exactly the order given. -/
def specJoinComma : List String → String
  | [] => ""
  | [x] => x
  | x :: xs => x ++ "," ++ specJoinComma xs

/-- Spec-side shape of the path `_get_csv_name` is claimed to return:
`outputs/<name>/<timestamp>,<key1>=<value1>,...` with the parameter
pairs comma-separated in the order given. -/
def csvNameSpec (name time : String) (args : List (String × Int)) : String :=
  "outputs/" ++ name ++ "/" ++ time ++ ","
    ++ specJoinComma (args.map (fun p => p.1 ++ "=" ++ toString p.2))

theorem intercalate_go_comma (as : List String) :
    ∀ acc, String.intercalate.go acc "," as = acc ++ commaTail as := by
  induction as with
  | nil =>
    intro acc
    rw [show String.intercalate.go acc "," [] = acc from rfl,
      show commaTail [] = "" from rfl, String.append_empty]
  | cons a as ih =>
    intro acc
    rw [show String.intercalate.go acc "," (a :: as)
        = String.intercalate.go (acc ++ "," ++ a) "," as from rfl, ih,
      show commaTail (a :: as) = "," ++ a ++ commaTail as from rfl]
    simp [String.append_assoc]

theorem specJoinComma_cons (x : String) (xs : List String) :
    specJoinComma (x :: xs) = x ++ commaTail xs := by
  cases xs with
  | nil => rw [show specJoinComma [x] = x from rfl, show commaTail [] = "" from rfl,
      String.append_empty]
  | cons y t =>
    rw [show specJoinComma (x :: y :: t) = x ++ "," ++ specJoinComma (y :: t) from rfl,
      specJoinComma_cons y t, show commaTail (y :: t) = "," ++ y ++ commaTail t from rfl]
    simp [String.append_assoc]

theorem intercalate_comma_eq_specJoin (l : List String) :
    String.intercalate "," l = specJoinComma l := by
  cases l with
  | nil => rfl
  | cons x xs =>
    rw [show String.intercalate "," (x :: xs) = String.intercalate.go x "," xs from rfl,
      intercalate_go_comma, specJoinComma_cons]

theorem takeWhile_all_append_stop {p : Char → Bool} (xs : List Char)
    (hxs : ∀ c ∈ xs, p c = true) (y : Char) (hy : p y = false) (ys : List Char) :
    (xs ++ y :: ys).takeWhile p = xs := by
  induction xs with
  | nil => simp [List.takeWhile_cons, hy]
  | cons a t ih =>
    have ha : p a = true := hxs a (List.mem_cons_self a t)
    have ht : ∀ c ∈ t, p c = true := fun c hc => hxs c (List.mem_cons_of_mem a hc)
    simp [List.takeWhile_cons, ha, ih ht]

/-- C10.  `_get_csv_name` returns a path of the spec's shape
`outputs/<name>/<timestamp>,<key1>=<value1>,...` with the pairs in the
order given; the timestamp is the rendered current datetime with
everything from its first dot on (the fractional seconds) dropped and
every colon replaced by a dash; and the shared `learn` driver always
hands `_get_csv_name` the pairs `num_seconds`, `delta_time`,
`yellow_time`, `min_green`, `max_green` in that order, which the built
environment records as its `out_csv_name`. -/
theorem get_csv_name_format :
    (∀ (self : TrafficAgent) (now : String) (args : List (String × Int)),
      self._get_csv_name now args = csvNameSpec self.name (pyTimestamp now) args) ∧
    (∀ whole frac : String, (∀ c ∈ whole.data, c ≠ '.') →
      pyTimestamp (whole ++ "." ++ frac) = pyReplaceColonDash whole) ∧
    (∀ (σ Obs V A : Type) (self : TrafficAgent) (impl : StrategyImpl σ Obs V A)
      (beh : EnvBehavior σ Obs V) (now : String) (fuel : Nat)
      (asi api gui : Bool) (tr : List (Ev V)),
      TrafficAgent.learn self impl beh now fuel asi api gui = some tr →
      tr.head? = some (Ev.getEnv (self._get_csv_name now
        [("num_seconds", self.num_seconds), ("delta_time", self.delta_time),
         ("yellow_time", self.yellow_time), ("min_green", self.min_green),
         ("max_green", self.max_green)]))) := by
  refine ⟨?_, ?_, ?_⟩
  · intro self now args
    rw [TrafficAgent._get_csv_name, csvNameSpec, intercalate_comma_eq_specJoin]
  · intro whole frac h
    have hdata : (whole ++ "." ++ frac).data = whole.data ++ '.' :: frac.data := by
      rw [String.data_append, String.data_append]
      simp
    have hall : ∀ c ∈ whole.data, (fun c => decide (c ≠ '.')) c = true := by
      intro c hc
      simp [h c hc]
    rw [pyTimestamp, pySplitDotHead, hdata,
      takeWhile_all_append_stop whole.data hall '.' (by simp) frac.data]
  · intro σ Obs V A self impl beh now fuel asi api gui tr h
    simp only [TrafficAgent.learn] at h
    split at h
    · exact absurd h (by simp)
    · injection h with h2
      subst h2
      rfl

/-- Concrete environment behaviour used by the witnesses: one traffic
signal `A`, termination reported on the first step from state `0`, and
a one-entry metrics list. -/
def behW : EnvBehavior Nat Nat Int :=
  { init := 0
    ts_ids := ["A"]
    resetFn := fun s => (s, fun _ => 7)
    stepFn := fun s _ =>
      { next := s + 1
        obs := fun _ => 7
        reward := fun _ => 1
        doneAll := s == 0
        metrics := [[("system_mean_speed", 3)]] }
    encode := fun o _ => o }

/-- Concrete fixed-cycle agent used by the witnesses. -/
def agentW : TrafficAgent :=
  FixedCycleTrafficAgent.mk "fixed" "red" "net.xml" "rou.xml" 100 5 2 5 50

/-- The trace the fixed-cycle `learn` produces on `behW` with fuel 1. -/
def trW : List (Ev Int) :=
  (TrafficAgent.learn agentW (FixedCycleTrafficAgent.impl agentW) behW
    "2024-05-06 07:08:09.123456" 1 true true false).getD []

/-- Witness for C10 on concrete inputs. -/
theorem get_csv_name_format_witness :
    (agentW._get_csv_name "2024-05-06 07:08:09.123456" [("num_seconds", 95)]
      = csvNameSpec "fixed" (pyTimestamp "2024-05-06 07:08:09.123456") [("num_seconds", 95)]) ∧
    pyTimestamp ("2024-05-06 07:08:09" ++ "." ++ "123456")
      = pyReplaceColonDash "2024-05-06 07:08:09" ∧
    trW.head? = some (Ev.getEnv (agentW._get_csv_name "2024-05-06 07:08:09.123456"
      [("num_seconds", agentW.num_seconds), ("delta_time", agentW.delta_time),
       ("yellow_time", agentW.yellow_time), ("min_green", agentW.min_green),
       ("max_green", agentW.max_green)])) := by
  refine ⟨get_csv_name_format.1 agentW "2024-05-06 07:08:09.123456" [("num_seconds", 95)],
    get_csv_name_format.2.1 "2024-05-06 07:08:09" "123456" (by decide),
    get_csv_name_format.2.2 Nat Nat Int (Option Unit) agentW
      (FixedCycleTrafficAgent.impl agentW) behW "2024-05-06 07:08:09.123456" 1
      true true false trW rfl⟩

theorem um_mem_shape {V : Type} (self : TrafficAgent) (info : List (String × V)) :
    ∀ e ∈ self._update_metrics info,
      (∃ v k, e = Ev.plotAppend v k) ∨ ∃ v k, e = Ev.callback v k self.name := by
  intro e he
  rcases List.mem_flatMap.mp he with ⟨k, _, hin⟩
  cases hget : dictGet? info k with
  | none =>
    simp only [hget] at hin
    cases hin
  | some v =>
    simp only [hget] at hin
    rcases List.mem_cons.mp hin with h | h
    · exact Or.inl ⟨v, k, h⟩
    · rcases List.mem_singleton.mp h with rfl
      exact Or.inr ⟨v, k, rfl⟩

theorem um_not_persist {V : Type} (self : TrafficAgent) (info : List (String × V)) :
    ∀ e ∈ self._update_metrics info, isPersistEv e = false := by
  intro e he
  rcases um_mem_shape self info e he with ⟨v, k, rfl⟩ | ⟨v, k, rfl⟩ <;> rfl

theorem um_no_envReset {V : Type} (self : TrafficAgent) (info : List (String × V)) :
    Ev.envReset ∉ self._update_metrics info := by
  intro he
  rcases um_mem_shape self info _ he with ⟨v, k, h⟩ | ⟨v, k, h⟩ <;> cases h

theorem fc_stepLoop_mem {σ Obs V : Type} (self : TrafficAgent)
    (env : SumoEnvironment σ Obs V) :
    ∀ (fuel : Nat) (s : σ) (res : σ × List (Ev V)),
      FixedCycleTrafficAgent.stepLoop self env s fuel = some res →
      ∀ e ∈ res.2, e = Ev.envStep [] ∨ (∃ v k, e = Ev.plotAppend v k) ∨
        ∃ v k, e = Ev.callback v k self.name := by
  intro fuel
  induction fuel with
  | zero => intro s res h; cases h
  | succ n ih =>
    intro s res h
    simp only [FixedCycleTrafficAgent.stepLoop] at h
    split at h
    · cases h
    · split at h
      · injection h with h2
        subst h2
        intro e he
        rcases List.mem_cons.mp he with h | h
        · exact Or.inl h
        · exact Or.inr (um_mem_shape self _ e h)
      · split at h
        · cases h
        · injection h with h2
          subst h2
          intro e he
          rcases List.mem_append.mp he with h | h
          · rcases List.mem_cons.mp h with h | h
            · exact Or.inl h
            · exact Or.inr (um_mem_shape self _ e h)
          · exact ih _ _ (by assumption) e h

theorem ql_stepLoop_mem {σ Obs V α : Type} (self : TrafficAgent)
    (qm : QLModel α V) (env : SumoEnvironment σ Obs V) :
    ∀ (fuel : Nat) (s : σ) (agents : Agents α) (res : σ × List (Ev V)),
      QLearningTrafficAgent.stepLoop self qm env s agents fuel = some res →
      ∀ e ∈ res.2, (∃ ts, e = Ev.agentAct ts) ∨ (∃ ks, e = Ev.envStep ks) ∨
        (∃ v k, e = Ev.plotAppend v k) ∨ (∃ v k, e = Ev.callback v k self.name) ∨
        ∃ a b c, e = Ev.agentLearnEv a b c := by
  intro fuel
  induction fuel with
  | zero => intro s agents res h; cases h
  | succ n ih =>
    intro s agents res h
    simp only [QLearningTrafficAgent.stepLoop] at h
    split at h
    · cases h
    · split at h
      · injection h with h2
        subst h2
        intro e he
        rcases List.mem_append.mp he with h | h
        · rcases List.mem_append.mp h with h | h
          · rcases List.mem_map.mp h with ⟨p, _, rfl⟩
            exact Or.inl ⟨p.1, rfl⟩
          · rcases List.mem_cons.mp h with h | h
            · exact Or.inr (Or.inl ⟨_, h⟩)
            · rcases um_mem_shape self _ e h with h | h
              · exact Or.inr (Or.inr (Or.inl h))
              · exact Or.inr (Or.inr (Or.inr (Or.inl h)))
        · rcases List.mem_map.mp h with ⟨p, _, rfl⟩
          exact Or.inr (Or.inr (Or.inr (Or.inr ⟨_, _, _, rfl⟩)))
      · split at h
        · cases h
        · injection h with h2
          subst h2
          intro e he
          rcases List.mem_append.mp he with h | h
          · rcases List.mem_append.mp h with h | h
            · rcases List.mem_append.mp h with h | h
              · rcases List.mem_map.mp h with ⟨p, _, rfl⟩
                exact Or.inl ⟨p.1, rfl⟩
              · rcases List.mem_cons.mp h with h | h
                · exact Or.inr (Or.inl ⟨_, h⟩)
                · rcases um_mem_shape self _ e h with h | h
                  · exact Or.inr (Or.inr (Or.inl h))
                  · exact Or.inr (Or.inr (Or.inr (Or.inl h)))
            · rcases List.mem_map.mp h with ⟨p, _, rfl⟩
              exact Or.inr (Or.inr (Or.inr (Or.inr ⟨_, _, _, rfl⟩)))
          · exact ih _ _ _ (by assumption) e h

theorem dqn_learn_mem {σ V : Type} (self : TrafficAgent) (dm : DQNModel σ V)
    (s : σ) (res : σ × List (Ev V))
    (h : DeepQLearningTrafficAgent._learn self dm s = some res) :
    ∀ e ∈ res.2, (∃ n, e = Ev.dqnLearn n) ∨ (∃ v k, e = Ev.plotAppend v k) ∨
      ∃ v k, e = Ev.callback v k self.name := by
  simp only [DeepQLearningTrafficAgent._learn] at h
  injection h with h2
  subst h2
  intro e he
  rcases List.mem_cons.mp he with h | h
  · exact Or.inl ⟨_, h⟩
  · rcases List.mem_flatMap.mp h with ⟨info, _, hin⟩
    exact Or.inr (um_mem_shape self info e hin)

/-- The lifecycle shape C1 claims of a completed `learn` trace: first
the environment construction, then the agent construction, then a
middle segment free of persistence events (the learning loop and any
events `_get_agent` emitted), and only then, in order, `_save_model`,
`_save_csv` on the environment's `out_csv_name`, `_save_plots` under
the agent's name, and `env.close()`. -/
def lifecycleOrdered {V : Type} (name : String) (tr : List (Ev V)) : Prop :=
  ∃ csv mid, tr = Ev.getEnv csv :: Ev.getAgent :: mid
      ++ [Ev.saveModel, Ev.saveCsv csv 0, Ev.savePlots name, Ev.envClose] ∧
    ∀ e ∈ mid, isPersistEv e = false

theorem learn_lifecycle_aux {σ Obs V A : Type} (self : TrafficAgent)
    (impl : StrategyImpl σ Obs V A) (beh : EnvBehavior σ Obs V)
    (now : String) (fuel : Nat) (asi api gui : Bool) (tr : List (Ev V))
    (hA : ∀ env s, ∀ e ∈ (impl.getAgent env s).2.2, isPersistEv e = false)
    (hL : ∀ env s a f res, impl.learnStep env s a f = some res →
      ∀ e ∈ res.2, isPersistEv e = false)
    (h : TrafficAgent.learn self impl beh now fuel asi api gui = some tr) :
    lifecycleOrdered self.name tr := by
  simp only [TrafficAgent.learn] at h
  split at h
  · cases h
  · injection h with h2
    subst h2
    refine ⟨_, _, rfl, ?_⟩
    intro e he
    rcases List.mem_append.mp he with he | he
    · exact hA _ _ e he
    · exact hL _ _ _ _ _ (by assumption) e he


theorem fc_learn_no_persist {σ Obs V : Type} (self : TrafficAgent)
    (env : SumoEnvironment σ Obs V) (s : σ) (fuel : Nat) (res : σ × List (Ev V))
    (h : FixedCycleTrafficAgent._learn self env s fuel = some res) :
    ∀ e ∈ res.2, isPersistEv e = false := by
  simp only [FixedCycleTrafficAgent._learn] at h
  split at h
  · cases h
  · injection h with h2
    subst h2
    intro e he
    rcases List.mem_cons.mp he with h | h
    · subst h; rfl
    · rcases fc_stepLoop_mem self env _ _ _ (by assumption) e h with rfl | ⟨v, k, rfl⟩ | ⟨v, k, rfl⟩ <;> rfl

theorem ql_learn_no_persist {σ Obs V α : Type} (self : TrafficAgent)
    (qm : QLModel α V) (env : SumoEnvironment σ Obs V) (s : σ)
    (agents : Agents α) (fuel : Nat) (res : σ × List (Ev V))
    (h : QLearningTrafficAgent._learn self qm env s agents fuel = some res) :
    ∀ e ∈ res.2, isPersistEv e = false := by
  intro e he
  rcases ql_stepLoop_mem self qm env fuel s agents res h e he with
    ⟨ts, rfl⟩ | ⟨ks, rfl⟩ | ⟨v, k, rfl⟩ | ⟨v, k, rfl⟩ | ⟨a, b, c, rfl⟩ <;> rfl

theorem ql_get_agent_no_persist {σ Obs V α : Type} (self : LearningTrafficAgentData)
    (qm : QLModel α V) (env : SumoEnvironment σ Obs V) (s : σ) :
    ∀ e ∈ (QLearningTrafficAgent._get_agent self qm env s).2.2, isPersistEv e = false := by
  intro e he
  simp only [QLearningTrafficAgent._get_agent] at he
  rcases List.mem_cons.mp he with h | h
  · subst h; rfl
  · rcases List.mem_map.mp h with ⟨ts, _, rfl⟩
    rfl

theorem dqn_learn_no_persist {σ V : Type} (self : TrafficAgent) (dm : DQNModel σ V)
    (s : σ) (res : σ × List (Ev V))
    (h : DeepQLearningTrafficAgent._learn self dm s = some res) :
    ∀ e ∈ res.2, isPersistEv e = false := by
  intro e he
  rcases dqn_learn_mem self dm s res h e he with
    ⟨n, rfl⟩ | ⟨v, k, rfl⟩ | ⟨v, k, rfl⟩ <;> rfl

/-- C1.  For every strategy subclass, a completed `learn` run performs
the lifecycle in order: environment construction (`_get_env`), agent
construction (`_get_agent`), the step/learn loop (whose metric events
reach the callback through `_update_metrics`), and only then the
persistence epilogue `_save_model`, `_save_csv`, `_save_plots` and
`env.close()`; no persistence event occurs before the loop has
finished. -/
theorem learn_lifecycle_order {σ Obs V α : Type} (selfF : TrafficAgent)
    (selfQ selfD : LearningTrafficAgentData) (qm : QLModel α V) (dm : DQNModel σ V)
    (beh : EnvBehavior σ Obs V) (now : String) (fuel : Nat) (asi api gui : Bool) :
    (∀ tr, FixedCycleTrafficAgent.learn selfF beh now fuel asi api gui = some tr →
      lifecycleOrdered selfF.name tr) ∧
    (∀ tr : List (Ev V), QLearningTrafficAgent.learn selfQ qm beh now fuel asi api gui = some tr →
      lifecycleOrdered selfQ.toTrafficAgent.name tr) ∧
    (∀ tr : List (Ev V), DeepQLearningTrafficAgent.learn selfD dm beh now fuel asi api gui = some tr →
      lifecycleOrdered selfD.toTrafficAgent.name tr) := by
  refine ⟨?_, ?_, ?_⟩
  · intro tr h
    refine learn_lifecycle_aux selfF _ beh now fuel asi api gui tr ?_ ?_ h
    · intro env s e he
      cases he
    · intro env s a f res hres e he
      exact fc_learn_no_persist selfF env s f res hres e he
  · intro tr h
    refine learn_lifecycle_aux selfQ.toTrafficAgent _ beh now fuel asi api gui tr ?_ ?_ h
    · intro env s e he
      exact ql_get_agent_no_persist selfQ qm env s e he
    · intro env s a f res hres e he
      exact ql_learn_no_persist selfQ.toTrafficAgent qm env s a f res hres e he
  · intro tr h
    refine learn_lifecycle_aux selfD.toTrafficAgent _ beh now fuel asi api gui tr ?_ ?_ h
    · intro env s e he
      cases he
    · intro env s a f res hres e he
      exact dqn_learn_no_persist selfD.toTrafficAgent dm s res hres e he

/-- Concrete Q-learning agent data used by the witnesses. -/
def qlAgentW : LearningTrafficAgentData :=
  QLearningTrafficAgent.mk "ql" "green" "net.xml" "rou.xml" 100 5 2 5 50

/-- Concrete deep Q-learning agent data used by the witnesses. -/
def dqnAgentW : LearningTrafficAgentData :=
  DeepQLearningTrafficAgent.mk "dqn" "blue" "net.xml" "rou.xml" 100 5 2 5 50

/-- Concrete tabular-agent behaviour used by the witnesses. -/
def qmW : QLModel Nat Int :=
  { newAgent := fun _ _ _ _ _ st => st
    actFn := fun a => (a, a + 1)
    learnFn := fun a _ _ => a }

/-- Concrete DQN trainer behaviour used by the witnesses: two callback
invocations with one-entry info dicts. -/
def dmW : DQNModel Nat Int :=
  { run := fun s _ => (s, [[("system_mean_speed", 3)], [("t_stopped", 4)]]) }

/-- Witness for C1: the fixed-cycle trace on the concrete behaviour has
the claimed lifecycle shape. -/
theorem learn_lifecycle_order_witness : lifecycleOrdered agentW.name trW :=
  (learn_lifecycle_order agentW qlAgentW dqnAgentW qmW dmW behW
    "2024-05-06 07:08:09.123456" 1 true true false).1 trW rfl

theorem learn_contains_persists {σ Obs V A : Type} (self : TrafficAgent)
    (impl : StrategyImpl σ Obs V A) (beh : EnvBehavior σ Obs V)
    (now : String) (fuel : Nat) (asi api gui : Bool) (tr : List (Ev V))
    (h : TrafficAgent.learn self impl beh now fuel asi api gui = some tr) :
    Ev.saveCsv (self._get_csv_name now
      [("num_seconds", self.num_seconds), ("delta_time", self.delta_time),
       ("yellow_time", self.yellow_time), ("min_green", self.min_green),
       ("max_green", self.max_green)]) 0 ∈ tr ∧
    Ev.savePlots self.name ∈ tr := by
  simp only [TrafficAgent.learn] at h
  split at h
  · cases h
  · injection h with h2
    subst h2
    constructor
    · refine List.mem_cons_of_mem _ (List.mem_cons_of_mem _ (List.mem_append_right _ ?_))
      exact List.mem_cons_of_mem _ (List.mem_cons_self _ _)
    · refine List.mem_cons_of_mem _ (List.mem_cons_of_mem _ (List.mem_append_right _ ?_))
      exact List.mem_cons_of_mem _ (List.mem_cons_of_mem _ (List.mem_cons_self _ _))

/-- C4.  After the learning loop of a completed `learn` run, the
collected metrics are persisted both to CSV (`env.save_csv` on the
environment's `out_csv_name`, which is the `_get_csv_name` path) and to
plots (`plotter.save` under the agent's name), for every agent
variant. -/
theorem learn_saves_csv_and_plots {σ Obs V α : Type} (selfF : TrafficAgent)
    (selfQ selfD : LearningTrafficAgentData) (qm : QLModel α V) (dm : DQNModel σ V)
    (beh : EnvBehavior σ Obs V) (now : String) (fuel : Nat) (asi api gui : Bool) :
    (∀ tr, FixedCycleTrafficAgent.learn selfF beh now fuel asi api gui = some tr →
      Ev.saveCsv (selfF._get_csv_name now
        [("num_seconds", selfF.num_seconds), ("delta_time", selfF.delta_time),
         ("yellow_time", selfF.yellow_time), ("min_green", selfF.min_green),
         ("max_green", selfF.max_green)]) 0 ∈ tr ∧ Ev.savePlots selfF.name ∈ tr) ∧
    (∀ tr : List (Ev V), QLearningTrafficAgent.learn selfQ qm beh now fuel asi api gui = some tr →
      Ev.saveCsv (selfQ.toTrafficAgent._get_csv_name now
        [("num_seconds", selfQ.toTrafficAgent.num_seconds), ("delta_time", selfQ.toTrafficAgent.delta_time),
         ("yellow_time", selfQ.toTrafficAgent.yellow_time), ("min_green", selfQ.toTrafficAgent.min_green),
         ("max_green", selfQ.toTrafficAgent.max_green)]) 0 ∈ tr ∧
      Ev.savePlots selfQ.toTrafficAgent.name ∈ tr) ∧
    (∀ tr : List (Ev V), DeepQLearningTrafficAgent.learn selfD dm beh now fuel asi api gui = some tr →
      Ev.saveCsv (selfD.toTrafficAgent._get_csv_name now
        [("num_seconds", selfD.toTrafficAgent.num_seconds), ("delta_time", selfD.toTrafficAgent.delta_time),
         ("yellow_time", selfD.toTrafficAgent.yellow_time), ("min_green", selfD.toTrafficAgent.min_green),
         ("max_green", selfD.toTrafficAgent.max_green)]) 0 ∈ tr ∧
      Ev.savePlots selfD.toTrafficAgent.name ∈ tr) := by
  refine ⟨?_, ?_, ?_⟩
  · intro tr h
    exact learn_contains_persists selfF _ beh now fuel asi api gui tr h
  · intro tr h
    exact learn_contains_persists selfQ.toTrafficAgent _ beh now fuel asi api gui tr h
  · intro tr h
    exact learn_contains_persists selfD.toTrafficAgent _ beh now fuel asi api gui tr h

/-- Witness for C4 on the concrete fixed-cycle run. -/
theorem learn_saves_csv_and_plots_witness :
    Ev.saveCsv (agentW._get_csv_name "2024-05-06 07:08:09.123456"
      [("num_seconds", agentW.num_seconds), ("delta_time", agentW.delta_time),
       ("yellow_time", agentW.yellow_time), ("min_green", agentW.min_green),
       ("max_green", agentW.max_green)]) 0 ∈ trW ∧
    Ev.savePlots agentW.name ∈ trW :=
  (learn_saves_csv_and_plots agentW qlAgentW dqnAgentW qmW dmW behW
    "2024-05-06 07:08:09.123456" 1 true true false).1 trW rfl

theorem stepsFrom_shift {σ Obs V : Type} (env : SumoEnvironment σ Obs V) (s : σ) :
    ∀ i, stepsFrom env s (i+1) = stepsFrom env (stepsFrom env s 0).next i := by
  intro i
  induction i with
  | zero => rfl
  | succ n ih =>
    show env.beh.stepFn (stepsFrom env s (n+1)).next []
      = env.beh.stepFn (stepsFrom env (stepsFrom env s 0).next n).next []
    rw [ih]

theorem range_succ_flatMap {β : Type} (N : Nat) (f : Nat → List β) :
    (List.range (N+1)).flatMap f = f 0 ++ (List.range N).flatMap (fun i => f (i+1)) := by
  rw [List.range_succ_eq_map, List.flatMap_cons, List.flatMap_map]

theorem fc_stepLoop_succ {σ Obs V : Type} (self : TrafficAgent)
    (env : SumoEnvironment σ Obs V) (s : σ) (fuel : Nat) :
    FixedCycleTrafficAgent.stepLoop self env s (fuel+1)
      = match (env.beh.stepFn s []).metrics.getLast? with
        | none => none
        | some info =>
          if (env.beh.stepFn s []).doneAll then
            some ((env.beh.stepFn s []).next, Ev.envStep [] :: self._update_metrics info)
          else
            match FixedCycleTrafficAgent.stepLoop self env (env.beh.stepFn s []).next fuel with
            | none => none
            | some res => some (res.1, (Ev.envStep [] :: self._update_metrics info) ++ res.2) := rfl

theorem fc_stepLoop_eq {σ Obs V : Type} (self : TrafficAgent)
    (env : SumoEnvironment σ Obs V) (N : Nat) :
    ∀ (s : σ) (m : Nat → List (String × V)),
      (stepsFrom env s N).doneAll = true →
      (∀ i, i < N → (stepsFrom env s i).doneAll = false) →
      (∀ i, i ≤ N → (stepsFrom env s i).metrics.getLast? = some (m i)) →
      FixedCycleTrafficAgent.stepLoop self env s (N+1)
        = some ((stepsFrom env s N).next,
            (List.range (N+1)).flatMap (fun i => Ev.envStep [] :: self._update_metrics (m i))) := by
  induction N with
  | zero =>
    intro s m hdone _ hmet
    have h0 := hmet 0 (Nat.le_refl 0)
    rw [fc_stepLoop_succ, show env.beh.stepFn s [] = stepsFrom env s 0 from rfl, h0, hdone]
    simp [List.range_succ]
  | succ n ih =>
    intro s m hdone hmin hmet
    have h0 := hmet 0 (Nat.zero_le _)
    have hd0 : (stepsFrom env s 0).doneAll = false := hmin 0 (Nat.succ_pos n)
    have hrec := ih (stepsFrom env s 0).next (fun i => m (i+1))
      (by rw [← stepsFrom_shift]; exact hdone)
      (fun i hi => by rw [← stepsFrom_shift]; exact hmin (i+1) (Nat.succ_lt_succ hi))
      (fun i hi => by rw [← stepsFrom_shift]; exact hmet (i+1) (Nat.succ_le_succ hi))
    rw [fc_stepLoop_succ, show env.beh.stepFn s [] = stepsFrom env s 0 from rfl, h0, hd0, hrec]
    rw [range_succ_flatMap (f := fun i => Ev.envStep [] :: self._update_metrics (m i)),
      ← stepsFrom_shift]
    simp

/-- C3.  The fixed-cycle `_learn` runs exactly one episode: it resets
the environment once (the reset appears exactly once, at the head of
its trace), then repeatedly steps with an empty actions dict, invoking
the metrics fan-out with `env.metrics[-1]` after every step, and stops
precisely at the first step whose `done["__all__"]` is true; with `N`
the index of that step (and the metrics list nonempty along the way),
fuel `N+1` suffices, so the loop terminates whenever the environment
eventually reports termination. -/
theorem fixed_cycle_one_episode {σ Obs V : Type} [DecidableEq V]
    (self : TrafficAgent) (env : SumoEnvironment σ Obs V) (s : σ) (N : Nat)
    (m : Nat → List (String × V))
    (hdone : (stepsFrom env (env.beh.resetFn s).1 N).doneAll = true)
    (hmin : ∀ i, i < N → (stepsFrom env (env.beh.resetFn s).1 i).doneAll = false)
    (hmet : ∀ i, i ≤ N →
      (stepsFrom env (env.beh.resetFn s).1 i).metrics.getLast? = some (m i)) :
    FixedCycleTrafficAgent._learn self env s (N+1)
      = some ((stepsFrom env (env.beh.resetFn s).1 N).next,
          Ev.envReset :: (List.range (N+1)).flatMap
            (fun i => Ev.envStep [] :: self._update_metrics (m i))) ∧
    (Ev.envReset :: (List.range (N+1)).flatMap
        (fun i => Ev.envStep [] :: self._update_metrics (m i))).count
      (Ev.envReset : Ev V) = 1 := by
  constructor
  · simp only [FixedCycleTrafficAgent._learn]
    rw [fc_stepLoop_eq self env N (env.beh.resetFn s).1 m hdone hmin hmet]
  · have hz : ((List.range (N+1)).flatMap
        (fun i => Ev.envStep [] :: self._update_metrics (m i))).count
        (Ev.envReset : Ev V) = 0 := by
      rw [List.count_eq_zero]
      intro hmem
      rcases List.mem_flatMap.mp hmem with ⟨i, _, hin⟩
      rcases List.mem_cons.mp hin with h | h
      · cases h
      · exact um_no_envReset self (m i) h
    rw [List.count_cons, hz]
    simp

/-- Concrete environment (configuration plus `behW`) used by the
witnesses. -/
def envW : SumoEnvironment Nat Nat Int :=
  agentW._get_env behW "outputs/w" false true true

/-- Witness for C3 on the concrete environment, which reports
termination on its first step. -/
theorem fixed_cycle_one_episode_witness :
    (FixedCycleTrafficAgent._learn agentW envW 0 1
      = some ((stepsFrom envW (envW.beh.resetFn 0).1 0).next,
          Ev.envReset :: (List.range 1).flatMap
            (fun i => Ev.envStep [] :: agentW._update_metrics [("system_mean_speed", 3)]))) ∧
    (Ev.envReset :: (List.range 1).flatMap
        (fun i => Ev.envStep [] :: agentW._update_metrics [("system_mean_speed", 3)])).count
      (Ev.envReset : Ev Int) = 1 :=
  fixed_cycle_one_episode agentW envW 0 0 (fun _ => [("system_mean_speed", 3)])
    rfl (fun i hi => absurd hi (Nat.not_lt_zero i))
    (fun i hi => by rw [Nat.le_zero.mp hi]; rfl)

/-- The actions-and-mutated-agents pairs built by one iteration of the
Q-learning loop (`agent[ts].act()` for every `ts`, in dict order). -/
def qlActed {α V : Type} (qm : QLModel α V) (ags : Agents α) :
    List (String × (Nat × α)) :=
  ags.map (fun p => (p.1, qm.actFn p.2))

/-- The actions dict one iteration passes to `env.step`. -/
def qlActions {α V : Type} (qm : QLModel α V) (ags : Agents α) :
    List (String × Nat) :=
  (qlActed qm ags).map (fun p => (p.1, p.2.1))

/-- The agents dict after `act()` but before `learn()`. -/
def qlAgents1 {α V : Type} (qm : QLModel α V) (ags : Agents α) : Agents α :=
  (qlActed qm ags).map (fun p => (p.1, p.2.2))

/-- The step result of one iteration of the Q-learning loop from state
`s` with agents `ags`. -/
def qlOut1 {σ Obs V α : Type} (qm : QLModel α V) (env : SumoEnvironment σ Obs V)
    (s : σ) (ags : Agents α) : StepOut σ Obs V :=
  env.beh.stepFn s (qlActions qm ags)

/-- The agents dict after the `learn()` calls of one iteration. -/
def qlAgents2 {σ Obs V α : Type} (qm : QLModel α V) (env : SumoEnvironment σ Obs V)
    (s : σ) (ags : Agents α) : Agents α :=
  (qlAgents1 qm ags).map (fun p =>
    (p.1, qm.learnFn p.2 (env.beh.encode ((qlOut1 qm env s ags).obs p.1) p.1)
      ((qlOut1 qm env s ags).reward p.1)))

/-- The events one iteration of the Q-learning loop emits, exactly as
the loop body builds them. -/
def qlRawBlock {σ Obs V α : Type} (self : TrafficAgent) (qm : QLModel α V)
    (env : SumoEnvironment σ Obs V) (s : σ) (ags : Agents α)
    (info : List (String × V)) : List (Ev V) :=
  (ags.map (fun p => Ev.agentAct p.1)
    ++ Ev.envStep ((qlActions qm ags).map (fun p => p.1)) :: self._update_metrics info)
    ++ (qlAgents1 qm ags).map (fun p =>
        Ev.agentLearnEv p.1 (env.beh.encode ((qlOut1 qm env s ags).obs p.1) p.1)
          ((qlOut1 qm env s ags).reward p.1))

/-- The events of one iteration, in tidy form: every agent acts (in
dict order), then the step with the agents' keys as the actions dict
keys, then the metric fan-out, then every agent learns from the encoded
next state and its reward. -/
def qlBlock {σ Obs V α : Type} (self : TrafficAgent)
    (env : SumoEnvironment σ Obs V) (ags : Agents α) (out : StepOut σ Obs V)
    (info : List (String × V)) : List (Ev V) :=
  (ags.map (fun p => Ev.agentAct p.1)
    ++ Ev.envStep (ags.map (fun p => p.1)) :: self._update_metrics info)
    ++ ags.map (fun p =>
        Ev.agentLearnEv p.1 (env.beh.encode (out.obs p.1) p.1) (out.reward p.1))

theorem qlRawBlock_eq {σ Obs V α : Type} (self : TrafficAgent) (qm : QLModel α V)
    (env : SumoEnvironment σ Obs V) (s : σ) (ags : Agents α)
    (info : List (String × V)) :
    qlRawBlock self qm env s ags info
      = qlBlock self env ags (qlOut1 qm env s ags) info := by
  simp [qlRawBlock, qlBlock, qlActions, qlActed, qlAgents1, List.map_map,
    Function.comp]

/-- State and agents before iteration `n` of the Q-learning loop
(iteration `0` starts from the given pair). -/
def qlIterSt {σ Obs V α : Type} (qm : QLModel α V) (env : SumoEnvironment σ Obs V)
    (p : σ × Agents α) : Nat → σ × Agents α
  | 0 => p
  | n+1 =>
    ((qlOut1 qm env (qlIterSt qm env p n).1 (qlIterSt qm env p n).2).next,
     qlAgents2 qm env (qlIterSt qm env p n).1 (qlIterSt qm env p n).2)

/-- The step result of iteration `n` of the Q-learning loop. -/
def qlIterOut {σ Obs V α : Type} (qm : QLModel α V) (env : SumoEnvironment σ Obs V)
    (p : σ × Agents α) (n : Nat) : StepOut σ Obs V :=
  qlOut1 qm env (qlIterSt qm env p n).1 (qlIterSt qm env p n).2

theorem qlIterSt_shift {σ Obs V α : Type} (qm : QLModel α V)
    (env : SumoEnvironment σ Obs V) (s : σ) (ags : Agents α) :
    ∀ i, qlIterSt qm env (s, ags) (i+1)
      = qlIterSt qm env ((qlOut1 qm env s ags).next, qlAgents2 qm env s ags) i := by
  intro i
  induction i with
  | zero => rfl
  | succ n ih =>
    show ((qlOut1 qm env (qlIterSt qm env (s, ags) (n+1)).1 (qlIterSt qm env (s, ags) (n+1)).2).next,
        qlAgents2 qm env (qlIterSt qm env (s, ags) (n+1)).1 (qlIterSt qm env (s, ags) (n+1)).2)
      = _
    rw [ih]
    rfl

theorem qlIterOut_shift {σ Obs V α : Type} (qm : QLModel α V)
    (env : SumoEnvironment σ Obs V) (s : σ) (ags : Agents α) (i : Nat) :
    qlIterOut qm env (s, ags) (i+1)
      = qlIterOut qm env ((qlOut1 qm env s ags).next, qlAgents2 qm env s ags) i := by
  show qlOut1 qm env (qlIterSt qm env (s, ags) (i+1)).1 (qlIterSt qm env (s, ags) (i+1)).2 = _
  rw [qlIterSt_shift]
  rfl

theorem ql_stepLoop_succ {σ Obs V α : Type} (self : TrafficAgent)
    (qm : QLModel α V) (env : SumoEnvironment σ Obs V) (s : σ)
    (ags : Agents α) (fuel : Nat) :
    QLearningTrafficAgent.stepLoop self qm env s ags (fuel+1)
      = match (qlOut1 qm env s ags).metrics.getLast? with
        | none => none
        | some info =>
          if (qlOut1 qm env s ags).doneAll then
            some ((qlOut1 qm env s ags).next, qlRawBlock self qm env s ags info)
          else
            match QLearningTrafficAgent.stepLoop self qm env
                (qlOut1 qm env s ags).next (qlAgents2 qm env s ags) fuel with
            | none => none
            | some res => some (res.1, qlRawBlock self qm env s ags info ++ res.2) := rfl

theorem ql_stepLoop_eq {σ Obs V α : Type} (self : TrafficAgent)
    (qm : QLModel α V) (env : SumoEnvironment σ Obs V) (N : Nat) :
    ∀ (s : σ) (ags : Agents α) (m : Nat → List (String × V)),
      (qlIterOut qm env (s, ags) N).doneAll = true →
      (∀ i, i < N → (qlIterOut qm env (s, ags) i).doneAll = false) →
      (∀ i, i ≤ N → (qlIterOut qm env (s, ags) i).metrics.getLast? = some (m i)) →
      QLearningTrafficAgent.stepLoop self qm env s ags (N+1)
        = some ((qlIterOut qm env (s, ags) N).next,
            (List.range (N+1)).flatMap (fun i =>
              qlBlock self env (qlIterSt qm env (s, ags) i).2
                (qlIterOut qm env (s, ags) i) (m i))) := by
  induction N with
  | zero =>
    intro s ags m hdone _ hmet
    have h0 : (qlOut1 qm env s ags).metrics.getLast? = some (m 0) :=
      hmet 0 (Nat.le_refl 0)
    have hd : (qlOut1 qm env s ags).doneAll = true := hdone
    rw [ql_stepLoop_succ, h0, hd]
    simp [qlRawBlock_eq, List.range_succ, qlIterSt, qlIterOut]
  | succ n ih =>
    intro s ags m hdone hmin hmet
    have h0 : (qlOut1 qm env s ags).metrics.getLast? = some (m 0) :=
      hmet 0 (Nat.zero_le _)
    have hd0 : (qlOut1 qm env s ags).doneAll = false := hmin 0 (Nat.succ_pos n)
    have hrec := ih (qlOut1 qm env s ags).next (qlAgents2 qm env s ags)
      (fun i => m (i+1))
      (by rw [← qlIterOut_shift]; exact hdone)
      (fun i hi => by rw [← qlIterOut_shift]; exact hmin (i+1) (Nat.succ_lt_succ hi))
      (fun i hi => by rw [← qlIterOut_shift]; exact hmet (i+1) (Nat.succ_le_succ hi))
    rw [ql_stepLoop_succ, h0, hd0, hrec]
    rw [range_succ_flatMap (f := fun i =>
      qlBlock self env (qlIterSt qm env (s, ags) i).2 (qlIterOut qm env (s, ags) i) (m i))]
    simp only [qlIterSt_shift, qlIterOut_shift]
    simp [qlRawBlock_eq, qlIterSt, qlIterOut]

/-- Spec-side dispatch row: what the spec says a strategy subclass
configures (`fixed_ts`) and whether it attaches a learning agent. -/
structure StrategySpecRow where
  fixed_ts : Bool
  attaches_agent : Bool
  deriving DecidableEq

/-- Spec-side row for the fixed-cycle baseline: `fixed_ts` true, no
learning agent. -/
def fixedCycleSpecRow : StrategySpecRow :=
  { fixed_ts := true, attaches_agent := false }

/-- Spec-side row for the tabular Q-learning strategy. -/
def qlearningSpecRow : StrategySpecRow :=
  { fixed_ts := false, attaches_agent := true }

/-- Spec-side row for the deep Q-learning strategy. -/
def deepQSpecRow : StrategySpecRow :=
  { fixed_ts := false, attaches_agent := true }

/-- C6.  The three strategies are dispatched purely through
subclassing: the fixed-cycle subclass constructs its environment with
`fixed_ts` true, its `_get_agent` returns `None` and its loop steps
with empty actions dicts; the tabular and deep subclasses construct
with `fixed_ts` false and attach one tabular agent per traffic signal
and an `MlpPolicy` DQN respectively; and each subclass's `learn` is the
single shared driver applied to its strategy record. -/
theorem strategy_dispatch {σ Obs V α : Type} (name color net_file route_file : String)
    (ns dt yt mg Mg : Int) (selfF : TrafficAgent) (selfQ selfD : LearningTrafficAgentData)
    (qm : QLModel α V) (dm : DQNModel σ V) (env : SumoEnvironment σ Obs V) (s : σ)
    (beh : EnvBehavior σ Obs V) (now : String) (fuel : Nat) (asi api gui : Bool) :
    (FixedCycleTrafficAgent.mk name color net_file route_file ns dt yt mg Mg).fixed_ts
      = fixedCycleSpecRow.fixed_ts ∧
    FixedCycleTrafficAgent._get_agent env s = ((none : Option Unit), s, ([] : List (Ev V))) ∧
    (∀ (f : Nat) (t : σ) (res : σ × List (Ev V)),
      FixedCycleTrafficAgent._learn selfF env t f = some res →
      ∀ ks, Ev.envStep ks ∈ res.2 → ks = []) ∧
    (QLearningTrafficAgent.mk name color net_file route_file ns dt yt mg Mg).toTrafficAgent.fixed_ts
      = qlearningSpecRow.fixed_ts ∧
    dictKeys (QLearningTrafficAgent._get_agent selfQ qm env s).1 = env.beh.ts_ids ∧
    (DeepQLearningTrafficAgent.mk name color net_file route_file ns dt yt mg Mg).toTrafficAgent.fixed_ts
      = deepQSpecRow.fixed_ts ∧
    (DeepQLearningTrafficAgent._get_agent selfD env s).1.policy = "MlpPolicy" ∧
    FixedCycleTrafficAgent.learn selfF beh now fuel asi api gui
      = TrafficAgent.learn selfF (FixedCycleTrafficAgent.impl selfF) beh now fuel asi api gui ∧
    QLearningTrafficAgent.learn selfQ qm beh now fuel asi api gui
      = TrafficAgent.learn selfQ.toTrafficAgent (QLearningTrafficAgent.impl selfQ qm) beh now fuel asi api gui ∧
    DeepQLearningTrafficAgent.learn selfD dm beh now fuel asi api gui
      = TrafficAgent.learn selfD.toTrafficAgent (DeepQLearningTrafficAgent.impl selfD dm) beh now fuel asi api gui := by
  refine ⟨rfl, rfl, ?_, rfl, ?_, rfl, rfl, rfl, rfl, rfl⟩
  · intro f t res h ks hm
    simp only [FixedCycleTrafficAgent._learn] at h
    split at h
    · cases h
    · next res2 heq =>
      injection h with h2
      subst h2
      rcases List.mem_cons.mp hm with hm2 | hm2
      · cases hm2
      · rcases fc_stepLoop_mem selfF env f _ res2 heq (Ev.envStep ks) hm2 with
          h2 | ⟨v, k, h2⟩ | ⟨v, k, h2⟩
        · injection h2 with h3
        · cases h2
        · cases h2
  · simp [QLearningTrafficAgent._get_agent, dictKeys, List.map_map, Function.comp_def]

/-- The result of the concrete fixed-cycle `_learn` run used by the
witnesses. -/
def resFW : Nat × List (Ev Int) :=
  (FixedCycleTrafficAgent._learn agentW envW 0 1).getD (0, [])

/-- Witness for C6: on the concrete run, the actions dict of the step
recorded in the trace is empty. -/
theorem strategy_dispatch_witness : ([] : List String) = [] :=
  (strategy_dispatch "fixed" "red" "net.xml" "rou.xml" 100 5 2 5 50 agentW
    qlAgentW dqnAgentW qmW dmW envW 0 behW "now" 1 true true false).2.2.1
    1 0 resFW rfl [] (by decide)

/-- C7.  For the tabular Q-learning strategy the environment is never
stepped before its single reset: the reset happens inside `_get_agent`
(which `learn` invokes before `_learn`), so the completed trace starts
`getEnv, getAgent, envReset` and contains no further reset; one
`QLAgent` is created per traffic-signal id from that reset's initial
states; and the step loop runs until the first step reporting
`done["__all__"]`, each iteration having every agent act, then the
step, then the metric fan-out, then every agent learn from the encoded
next state and its reward. -/
theorem ql_reset_then_act_step_learn {σ Obs V α : Type}
    (selfQ : LearningTrafficAgentData) (qm : QLModel α V)
    (beh : EnvBehavior σ Obs V) (env : SumoEnvironment σ Obs V) (s0 : σ)
    (now : String) (fuel : Nat) (asi api gui : Bool) :
    (∀ tr, QLearningTrafficAgent.learn selfQ qm beh now fuel asi api gui = some tr →
      ∃ csv rest, tr = Ev.getEnv csv :: Ev.getAgent :: Ev.envReset :: rest ∧
        (Ev.envReset : Ev V) ∉ rest) ∧
    ((QLearningTrafficAgent._get_agent selfQ qm env s0).1
      = env.beh.ts_ids.map (fun ts =>
          (ts, qm.newAgent selfQ.alpha selfQ.gamma selfQ.initial_epsilon
            selfQ.min_epsilon (9/10) (env.beh.encode ((env.beh.resetFn s0).2 ts) ts)))) ∧
    (∀ (s : σ) (ags : Agents α) (m : Nat → List (String × V)) (N : Nat),
      (qlIterOut qm env (s, ags) N).doneAll = true →
      (∀ i, i < N → (qlIterOut qm env (s, ags) i).doneAll = false) →
      (∀ i, i ≤ N → (qlIterOut qm env (s, ags) i).metrics.getLast? = some (m i)) →
      QLearningTrafficAgent._learn selfQ.toTrafficAgent qm env s ags (N+1)
        = some ((qlIterOut qm env (s, ags) N).next,
            (List.range (N+1)).flatMap (fun i =>
              qlBlock selfQ.toTrafficAgent env (qlIterSt qm env (s, ags) i).2
                (qlIterOut qm env (s, ags) i) (m i)))) := by
  refine ⟨?_, rfl, ?_⟩
  · intro tr h
    simp only [QLearningTrafficAgent.learn, TrafficAgent.learn] at h
    split at h
    · cases h
    · next res heq =>
      injection h with h2
      subst h2
      refine ⟨_, _, rfl, ?_⟩
      intro he
      rcases List.mem_append.mp he with hm | hm
      · rcases List.mem_append.mp hm with hm | hm
        · rcases List.mem_map.mp hm with ⟨ts, _, heq2⟩
          simp at heq2
        · rcases ql_stepLoop_mem selfQ.toTrafficAgent qm _ fuel _ _ res heq
            Ev.envReset hm with
            ⟨ts, h2⟩ | ⟨ks, h2⟩ | ⟨v, k, h2⟩ | ⟨v, k, h2⟩ | ⟨a, b, c, h2⟩ <;> cases h2
      · simp [TrafficAgent.persistEvents] at hm
  · intro s ags m N hdone hmin hmet
    exact ql_stepLoop_eq selfQ.toTrafficAgent qm env N s ags m hdone hmin hmet

/-- The agents dict the concrete Q-learning `_get_agent` builds. -/
def agsW : Agents Nat :=
  (QLearningTrafficAgent._get_agent qlAgentW qmW envW 0).1

/-- The trace of the concrete Q-learning `learn` run. -/
def trQW : List (Ev Int) :=
  (QLearningTrafficAgent.learn qlAgentW qmW behW "now" 1 true true false).getD []

/-- Witness for C7 on the concrete environment. -/
theorem ql_reset_then_act_step_learn_witness :
    (∃ csv rest, trQW = Ev.getEnv csv :: Ev.getAgent :: Ev.envReset :: rest ∧
      (Ev.envReset : Ev Int) ∉ rest) ∧
    ((QLearningTrafficAgent._get_agent qlAgentW qmW envW 0).1
      = envW.beh.ts_ids.map (fun ts =>
          (ts, qmW.newAgent qlAgentW.alpha qlAgentW.gamma qlAgentW.initial_epsilon
            qlAgentW.min_epsilon (9/10) (envW.beh.encode ((envW.beh.resetFn 0).2 ts) ts)))) ∧
    (QLearningTrafficAgent._learn qlAgentW.toTrafficAgent qmW envW 0 agsW 1
      = some ((qlIterOut qmW envW (0, agsW) 0).next,
          (List.range 1).flatMap (fun i =>
            qlBlock qlAgentW.toTrafficAgent envW (qlIterSt qmW envW (0, agsW) i).2
              (qlIterOut qmW envW (0, agsW) i) [("system_mean_speed", 3)]))) :=
  ⟨(ql_reset_then_act_step_learn qlAgentW qmW behW envW 0 "now" 1 true true false).1
      trQW rfl,
   (ql_reset_then_act_step_learn qlAgentW qmW behW envW 0 "now" 1 true true false).2.1,
   (ql_reset_then_act_step_learn qlAgentW qmW behW envW 0 "now" 1 true true false).2.2
      0 agsW (fun _ => [("system_mean_speed", 3)]) 0 rfl
      (fun i hi => absurd hi (Nat.not_lt_zero i))
      (fun i hi => by rw [Nat.le_zero.mp hi]; rfl)⟩
